import Mathlib

/-!
Verification of the `DecimalFromFloatLiteral` lint rule (RUF032) from
`crates/ruff_linter/src/rules/ruff/rules/decimal_from_float_literal.rs`.

The rule inspects one call expression at a time: if the callee resolves to the
qualified name `["decimal", "Decimal"]` and the first positional argument is a
float-kind numeric literal (possibly wrapped in exactly one unary operator), it
pushes one diagnostic carrying a behavior-changing fix that replaces the
span of the argument with the rendered text of the argument wrapped in double quotes.

The embedding below translates the Rust data model and the rule function into
Lean.  External collaborators (the semantic resolver and the code generator)
are fields of the `Checker` record, as they are behind narrow interfaces in the
source: the rule only ever calls `resolve_qualified_name` and `generator.expr`.
-/

namespace Ruff

/-- Source span of a node, mirroring `ruff_text_size::TextRange`
(`start`/`end` byte offsets; `end` is a Lean keyword, so the field is `stop`). -/
structure TextRange where
  start : Nat
  stop : Nat
deriving DecidableEq, Repr

/-- Numeric literal kinds, mirroring `ruff_python_ast::Number`.  The payloads
(`i64`/big int text, `f64`, complex parts) are abstracted to their source text:
the rule matches only on the kind and never inspects the numeric value. -/
inductive Number where
  | int (value : Int)
  | float (lit : String)
  | complex (lit : String)
deriving DecidableEq, Repr

/-- Unary operators, mirroring `ruff_python_ast::UnaryOp`. -/
inductive UnaryOp where
  | invert
  | bitNot
  | uadd
  | usub
deriving DecidableEq, Repr

/-- Expression nodes, mirroring the fragment of `ruff_python_ast::Expr` the
rule can encounter as a callee or argument.  The own arguments of a nested call are
elided (`call` keeps only the callee and span) because the rule never looks
inside a nested call; `other` stands for every remaining expression shape. -/
inductive Expr where
  | numberLiteral (value : Number) (range : TextRange)
  | stringLiteral (value : String) (range : TextRange)
  | name (id : String) (range : TextRange)
  | unaryOp (op : UnaryOp) (operand : Expr) (range : TextRange)
  | call (func : Expr) (range : TextRange)
  | other (range : TextRange)
deriving DecidableEq, Repr

/-- The span of an expression, mirroring the `Ranged::range` accessor. -/
def Expr.range : Expr → TextRange
  | .numberLiteral _ r => r
  | .stringLiteral _ r => r
  | .name _ r => r
  | .unaryOp _ _ r => r
  | .call _ r => r
  | .other r => r

/-- A keyword argument, mirroring `ruff_python_ast::Keyword`
(`arg = none` is a `**kwargs` splat). -/
structure Keyword where
  arg : Option String
  value : Expr
deriving DecidableEq, Repr

/-- The arguments of a call, mirroring `ruff_python_ast::Arguments`:
positional arguments in order, then keyword arguments. -/
structure Arguments where
  args : List Expr
  keywords : List Keyword
deriving DecidableEq, Repr

/-- A call expression node, mirroring `ruff_python_ast::ExprCall`. -/
structure ExprCall where
  func : Expr
  arguments : Arguments
  range : TextRange
deriving DecidableEq, Repr

/-- A single text edit, mirroring `ruff_diagnostics::Edit`. -/
structure Edit where
  range : TextRange
  content : String
deriving DecidableEq, Repr

/-- Builds a replacement edit, mirroring `Edit::range_replacement`. -/
def Edit.range_replacement (content : String) (range : TextRange) : Edit :=
  { range := range, content := content }

/-- Fix safety classification, mirroring `ruff_diagnostics::Applicability`.
`notSafe` models the `Unsafe` variant of the source (that identifier is reserved
here); `safe` and `displayOnly` model `Safe` and `DisplayOnly`. -/
inductive Applicability where
  | safe
  | notSafe
  | displayOnly
deriving DecidableEq, Repr

/-- A fix, mirroring `ruff_diagnostics::Fix`: edits plus a safety mark. -/
structure Fix where
  edits : List Edit
  applicability : Applicability
deriving DecidableEq, Repr

/-- Builds a fix marked `Unsafe` from one edit, mirroring `Fix::unsafe_edit`
(renamed for the same reason as `Applicability.notSafe`). -/
def Fix.notSafe_edit (edit : Edit) : Fix :=
  { edits := [edit], applicability := Applicability.notSafe }

/-- The data of a violation: its message and fix title, mirroring the
`AlwaysFixableViolation` impl for `DecimalFromFloatLiteral`. -/
structure Violation where
  message : String
  fix_title : String
deriving DecidableEq, Repr

/-- The `DecimalFromFloatLiteral` violation with the message and fix title
from its `AlwaysFixableViolation` impl. -/
def DecimalFromFloatLiteral : Violation :=
  { message := "`Decimal()` called with float literal argument"
    fix_title := "Use a string literal instead" }

/-- A reported finding, mirroring `ruff_diagnostics::Diagnostic`: the
violation data, the span the finding applies to, and an optional fix. -/
structure Diagnostic where
  violation : Violation
  range : TextRange
  fix : Option Fix
deriving DecidableEq, Repr

/-- Mirrors `Diagnostic::new`: a diagnostic with no fix attached yet. -/
def Diagnostic.new (violation : Violation) (range : TextRange) : Diagnostic :=
  { violation := violation, range := range, fix := none }

/-- Mirrors `Diagnostic::with_fix`: attaches a fix to a diagnostic. -/
def Diagnostic.with_fix (d : Diagnostic) (f : Fix) : Diagnostic :=
  { d with fix := some f }

/-- The slice of `Checker` state the rule touches: the semantic resolver
(`checker.semantic().resolve_qualified_name`, returning the dotted path the
callee refers to, or `none`), the code generator (`checker.generator().expr`,
rendering an expression back to source text), and the diagnostics sink.
The resolver and generator are opaque collaborators, so they are arbitrary
functions here. -/
structure Checker where
  resolve_qualified_name : Expr → Option (List String)
  generator_expr : Expr → String
  diagnostics : List Diagnostic

/-- Mirrors `checker.diagnostics.push(d)`. -/
def Checker.push (c : Checker) (d : Diagnostic) : Checker :=
  { c with diagnostics := c.diagnostics ++ [d] }

/-- Mirrors `fix_float_literal`: wrap the rendered literal in double quotes
and produce an `Unsafe`-marked replacement of the given range. -/
def fix_float_literal (range : TextRange) (float_literal : String) : Fix :=
  Fix.notSafe_edit (Edit.range_replacement ("\"" ++ float_literal ++ "\"") range)

/-- Mirrors `decimal_from_float_literal_syntax`, the rule entry point:
return unchanged if there is no first positional argument; return unchanged
unless the callee resolves to exactly `["decimal", "Decimal"]`; then push one
diagnostic if the argument is a float literal, or a unary expression whose
operand is a float literal; otherwise return unchanged. -/
def decimal_from_float_literal_syntax (checker : Checker) (call : ExprCall) : Checker :=
  match call.arguments.args.head? with
  | none => checker
  | some arg =>
    if checker.resolve_qualified_name call.func = some ["decimal", "Decimal"] then
      match arg with
      | Expr.numberLiteral (Number.float _) _ =>
          checker.push ((Diagnostic.new DecimalFromFloatLiteral arg.range).with_fix
            (fix_float_literal arg.range (checker.generator_expr arg)))
      | Expr.unaryOp _ operand _ =>
          match operand with
          | Expr.numberLiteral (Number.float _) _ =>
              checker.push ((Diagnostic.new DecimalFromFloatLiteral arg.range).with_fix
                (fix_float_literal arg.range (checker.generator_expr arg)))
          | _ => checker
      | _ => checker
    else checker

/-- Whether an expression is directly a float-kind numeric literal: the shape
tested by both `if let` patterns inside the rule. -/
def is_float_literal : Expr → Bool
  | Expr.numberLiteral (Number.float _) _ => true
  | _ => false

/-- Whether a first positional argument matches the rule: a float literal, or
one unary operator wrapping a float literal — the union of the two `if let`
arms of `decimal_from_float_literal_syntax`. -/
def arg_matches : Expr → Bool
  | Expr.numberLiteral (Number.float _) _ => true
  | Expr.unaryOp _ operand _ => is_float_literal operand
  | _ => false

/-- The diagnostics pushed by one invocation of the rule: the suffix of the
sink past the entries already present. -/
def emitted (c : Checker) (call : ExprCall) : List Diagnostic :=
  ( decimal_from_float_literal_syntax c call).diagnostics.drop c.diagnostics.length

/-! Concrete collaborators and inputs used by the witnesses. -/

/-- A concrete resolver: `Decimal` and the alias `D` resolve to
`decimal.Decimal`; `local_decimal` resolves to an unrelated `Decimal` in
another module; every other callee is unresolved. -/
def demoResolver : Expr → Option (List String)
  | Expr.name "Decimal" _ => some ["decimal", "Decimal"]
  | Expr.name "D" _ => some ["decimal", "Decimal"]
  | Expr.name "local_decimal" _ => some ["mymod", "Decimal"]
  | _ => none

/-- A concrete code generator rendering the expression fragment the witnesses
use back to source text. -/
def demoGenerator : Expr → String
  | Expr.numberLiteral (Number.int v) _ => toString v
  | Expr.numberLiteral (Number.float lit) _ => lit
  | Expr.numberLiteral (Number.complex lit) _ => lit
  | Expr.stringLiteral s _ => "\"" ++ s ++ "\""
  | Expr.name id _ => id
  | Expr.unaryOp UnaryOp.usub operand _ => "-" ++ demoGenerator operand
  | Expr.unaryOp UnaryOp.uadd operand _ => "+" ++ demoGenerator operand
  | Expr.unaryOp UnaryOp.invert operand _ => "~" ++ demoGenerator operand
  | Expr.unaryOp UnaryOp.bitNot operand _ => "not " ++ demoGenerator operand
  | Expr.call f _ => demoGenerator f ++ "()"
  | Expr.other _ => "<expr>"

/-- A checker with an empty sink over the demo collaborators. -/
def demoChecker : Checker :=
  { resolve_qualified_name := demoResolver
    generator_expr := demoGenerator
    diagnostics := [] }

/-- The call `Decimal(1.2345)`. -/
def callFloat : ExprCall :=
  { func := Expr.name "Decimal" { start := 0, stop := 7 }
    arguments :=
      { args := [Expr.numberLiteral (Number.float "1.2345") { start := 8, stop := 14 }]
        keywords := [] }
    range := { start := 0, stop := 15 } }

/-- The call `Decimal(-1.5)`. -/
def callNegFloat : ExprCall :=
  { func := Expr.name "Decimal" { start := 0, stop := 7 }
    arguments :=
      { args := [Expr.unaryOp UnaryOp.usub
          (Expr.numberLiteral (Number.float "1.5") { start := 9, stop := 12 })
          { start := 8, stop := 12 }]
        keywords := [] }
    range := { start := 0, stop := 13 } }

/-- The call `Decimal(-(-1.0))`. -/
def callDoubleNeg : ExprCall :=
  { func := Expr.name "Decimal" { start := 0, stop := 7 }
    arguments :=
      { args := [Expr.unaryOp UnaryOp.usub
          (Expr.unaryOp UnaryOp.usub
            (Expr.numberLiteral (Number.float "1.0") { start := 11, stop := 14 })
            { start := 10, stop := 15 })
          { start := 8, stop := 15 }]
        keywords := [] }
    range := { start := 0, stop := 16 } }

/-- The call `local_decimal(1.2345)`, whose callee resolves to
`mymod.Decimal`, not `decimal.Decimal`. -/
def callShadow : ExprCall :=
  { func := Expr.name "local_decimal" { start := 0, stop := 13 }
    arguments :=
      { args := [Expr.numberLiteral (Number.float "1.2345") { start := 14, stop := 20 }]
        keywords := [] }
    range := { start := 0, stop := 21 } }

/-- The call `Decimal("1.2345")`. -/
def callString : ExprCall :=
  { func := Expr.name "Decimal" { start := 0, stop := 7 }
    arguments :=
      { args := [Expr.stringLiteral "1.2345" { start := 8, stop := 16 }]
        keywords := [] }
    range := { start := 0, stop := 17 } }

/-- The call `Decimal(5)`. -/
def callInt : ExprCall :=
  { func := Expr.name "Decimal" { start := 0, stop := 7 }
    arguments :=
      { args := [Expr.numberLiteral (Number.int 5) { start := 8, stop := 9 }]
        keywords := [] }
    range := { start := 0, stop := 10 } }

/-- The call `Decimal(1.2j)`. -/
def callComplex : ExprCall :=
  { func := Expr.name "Decimal" { start := 0, stop := 7 }
    arguments :=
      { args := [Expr.numberLiteral (Number.complex "1.2j") { start := 8, stop := 12 }]
        keywords := [] }
    range := { start := 0, stop := 13 } }

/-- The call `Decimal(-1.2j)`. -/
def callNegComplex : ExprCall :=
  { func := Expr.name "Decimal" { start := 0, stop := 7 }
    arguments :=
      { args := [Expr.unaryOp UnaryOp.usub
          (Expr.numberLiteral (Number.complex "1.2j") { start := 9, stop := 13 })
          { start := 8, stop := 13 }]
        keywords := [] }
    range := { start := 0, stop := 14 } }

/-- The call `Decimal(value=1.0)`: no positional arguments, the float is a
keyword argument. -/
def callKeywordOnly : ExprCall :=
  { func := Expr.name "Decimal" { start := 0, stop := 7 }
    arguments :=
      { args := []
        keywords := [{ arg := some "value"
                       value := Expr.numberLiteral (Number.float "1.0") { start := 14, stop := 17 } }] }
    range := { start := 0, stop := 18 } }

/-- The call `unknown_name(1.2345)`, whose callee does not resolve. -/
def callUnresolved : ExprCall :=
  { func := Expr.name "unknown_name" { start := 0, stop := 12 }
    arguments :=
      { args := [Expr.numberLiteral (Number.float "1.2345") { start := 13, stop := 19 }]
        keywords := [] }
    range := { start := 0, stop := 20 } }

/-! Helper lemmas shared by the claim theorems. -/

/-- The whole rule as one closed form: the checker is returned unchanged
unless there is a first positional argument, the callee resolves to
`decimal.Decimal`, and the argument matches, in which case exactly its
diagnostic is pushed. -/
theorem check_characterization (c : Checker) (call : ExprCall) :
    decimal_from_float_literal_syntax c call =
      match call.arguments.args.head? with
      | none => c
      | some arg =>
        if c.resolve_qualified_name call.func = some ["decimal", "Decimal"]
            ∧ arg_matches arg = true then
          c.push ((Diagnostic.new DecimalFromFloatLiteral arg.range).with_fix
            (fix_float_literal arg.range (c.generator_expr arg)))
        else c := by
  unfold decimal_from_float_literal_syntax
  cases hargs : call.arguments.args.head? with
  | none => rfl
  | some arg =>
    by_cases hres : c.resolve_qualified_name call.func = some ["decimal", "Decimal"]
    · cases arg with
      | numberLiteral v r => cases v <;> simp [arg_matches, hres]
      | stringLiteral s r => simp [arg_matches, hres]
      | name id r => simp [arg_matches, hres]
      | unaryOp op operand r =>
        cases operand with
        | numberLiteral v r1 => cases v <;> simp [arg_matches, is_float_literal, hres]
        | stringLiteral s r1 => simp [arg_matches, is_float_literal, hres]
        | name id r1 => simp [arg_matches, is_float_literal, hres]
        | unaryOp op1 operand1 r1 => simp [arg_matches, is_float_literal, hres]
        | call f r1 => simp [arg_matches, is_float_literal, hres]
        | other r1 => simp [arg_matches, is_float_literal, hres]
      | call f r => simp [arg_matches, hres]
      | other r => simp [arg_matches, hres]
    · simp [hres]

/-- When the rule returns the checker unchanged, it emitted nothing. -/
theorem emitted_of_unchanged (c : Checker) (call : ExprCall)
    (h : decimal_from_float_literal_syntax c call = c) : emitted c call = [] := by
  simp [emitted, h]

/-- When the rule pushed one diagnostic, it emitted exactly that one. -/
theorem emitted_of_push (c : Checker) (call : ExprCall) (d : Diagnostic)
    (h : decimal_from_float_literal_syntax c call = c.push d) :
    emitted c call = [d] := by
  simp [emitted, h, Checker.push]

/-- With no first positional argument the checker comes back unchanged. -/
theorem check_unchanged_of_none (c : Checker) (call : ExprCall)
    (hhead : call.arguments.args.head? = none) :
    decimal_from_float_literal_syntax c call = c := by
  rw [check_characterization]
  simp [hhead]

/-- With a matching first positional argument and a callee resolving to
`decimal.Decimal`, the rule pushes exactly its diagnostic. -/
theorem check_push_of_match (c : Checker) (call : ExprCall) (arg : Expr)
    (hhead : call.arguments.args.head? = some arg)
    (hres : c.resolve_qualified_name call.func = some ["decimal", "Decimal"])
    (hm : arg_matches arg = true) :
    decimal_from_float_literal_syntax c call =
      c.push ((Diagnostic.new DecimalFromFloatLiteral arg.range).with_fix
        (fix_float_literal arg.range (c.generator_expr arg))) := by
  rw [check_characterization]
  simp [hhead, hres, hm]

/-- With a first positional argument present but the resolution-and-shape
condition failing, the checker comes back unchanged. -/
theorem check_unchanged_of_nomatch (c : Checker) (call : ExprCall) (arg : Expr)
    (hhead : call.arguments.args.head? = some arg)
    (hcond : ¬(c.resolve_qualified_name call.func = some ["decimal", "Decimal"]
      ∧ arg_matches arg = true)) :
    decimal_from_float_literal_syntax c call = c := by
  rw [check_characterization]
  simp only [hhead]
  rw [if_neg hcond]

/-! Claim theorems. -/

/-- C1: when the callee resolves to the qualified name `["decimal",
"Decimal"]` and the first positional argument is directly a float-kind numeric
literal, the rule pushes exactly one diagnostic, spanning the argument, whose
fix replaces exactly that span with the rendering, by the code generator, of the
argument wrapped in double quotes. -/
theorem float_literal_arg_emits_exactly_one_quoted_fix_diagnostic
    (c : Checker) (call : ExprCall) (lit : String) (r : TextRange) (rest : List Expr)
    (hargs : call.arguments.args = Expr.numberLiteral (Number.float lit) r :: rest)
    (hres : c.resolve_qualified_name call.func = some ["decimal", "Decimal"]) :
    ( decimal_from_float_literal_syntax c call).diagnostics =
      c.diagnostics ++
        [{ violation := DecimalFromFloatLiteral
           range := r
           fix := some
             { edits := [{ range := r
                           content := "\"" ++
                             c.generator_expr (Expr.numberLiteral (Number.float lit) r)
                             ++ "\"" }]
               applicability := Applicability.notSafe } }] := by
  rw [check_characterization]
  simp [hargs, hres, arg_matches, Checker.push, Diagnostic.new, Diagnostic.with_fix,
    fix_float_literal, Fix.notSafe_edit, Edit.range_replacement, Expr.range]

/-- Witness for C1 at the call `Decimal(1.2345)`. -/
theorem float_literal_arg_emits_exactly_one_quoted_fix_diagnostic_witness :
    ( decimal_from_float_literal_syntax demoChecker callFloat).diagnostics =
      demoChecker.diagnostics ++
        [{ violation := DecimalFromFloatLiteral
           range := { start := 8, stop := 14 }
           fix := some
             { edits := [{ range := { start := 8, stop := 14 }
                           content := "\"" ++
                             demoChecker.generator_expr
                               (Expr.numberLiteral (Number.float "1.2345")
                                 { start := 8, stop := 14 })
                             ++ "\"" }]
               applicability := Applicability.notSafe } }] :=
  float_literal_arg_emits_exactly_one_quoted_fix_diagnostic demoChecker callFloat
    "1.2345" { start := 8, stop := 14 } [] rfl rfl

/-- C2: a unary first argument (any operator) wrapping a float literal fires a
diagnostic spanning the whole unary expression; a unary first argument whose
operand is not directly a float literal (so in particular a nested unary
expression such as in `Decimal(-(-1.0))`) never fires — only one level of
unary wrapping is recognized. -/
theorem unary_float_literal_matches_only_one_level :
    (∀ (c : Checker) (call : ExprCall) (op : UnaryOp) (lit : String)
        (r1 r : TextRange) (rest : List Expr),
        call.arguments.args =
          Expr.unaryOp op (Expr.numberLiteral (Number.float lit) r1) r :: rest →
        c.resolve_qualified_name call.func = some ["decimal", "Decimal"] →
        ( decimal_from_float_literal_syntax c call).diagnostics =
          c.diagnostics ++
            [(Diagnostic.new DecimalFromFloatLiteral r).with_fix
              (fix_float_literal r (c.generator_expr
                (Expr.unaryOp op (Expr.numberLiteral (Number.float lit) r1) r)))]) ∧
    (∀ (c : Checker) (call : ExprCall) (op : UnaryOp) (operand : Expr)
        (r : TextRange) (rest : List Expr),
        call.arguments.args = Expr.unaryOp op operand r :: rest →
        is_float_literal operand = false →
        decimal_from_float_literal_syntax c call = c) := by
  constructor
  · intro c call op lit r1 r rest hargs hres
    rw [check_characterization]
    simp [hargs, hres, arg_matches, is_float_literal, Checker.push, Expr.range]
  · intro c call op operand r rest hargs hop
    rw [check_characterization]
    simp [hargs, arg_matches, hop]

/-- Witness for C2 at the calls `Decimal(-1.5)` (fires, spanning the unary
expression) and `Decimal(-(-1.0))` (does not fire). -/
theorem unary_float_literal_matches_only_one_level_witness :
    ( decimal_from_float_literal_syntax demoChecker callNegFloat).diagnostics =
      demoChecker.diagnostics ++
        [(Diagnostic.new DecimalFromFloatLiteral { start := 8, stop := 12 }).with_fix
          (fix_float_literal { start := 8, stop := 12 } (demoChecker.generator_expr
            (Expr.unaryOp UnaryOp.usub
              (Expr.numberLiteral (Number.float "1.5") { start := 9, stop := 12 })
              { start := 8, stop := 12 })))] ∧
    decimal_from_float_literal_syntax demoChecker callDoubleNeg = demoChecker :=
  ⟨unary_float_literal_matches_only_one_level.1 demoChecker callNegFloat
      UnaryOp.usub "1.5" { start := 9, stop := 12 } { start := 8, stop := 12 } [] rfl rfl,
    unary_float_literal_matches_only_one_level.2 demoChecker callDoubleNeg
      UnaryOp.usub
      (Expr.unaryOp UnaryOp.usub
        (Expr.numberLiteral (Number.float "1.0") { start := 11, stop := 14 })
        { start := 10, stop := 15 })
      { start := 8, stop := 15 } [] rfl rfl⟩

/-- C3: when the callee is unresolvable, or resolves to anything other than
exactly `["decimal", "Decimal"]`, the rule returns the checker unchanged,
whatever the arguments look like. -/
theorem non_decimal_callee_emits_nothing (c : Checker) (call : ExprCall)
    (h : c.resolve_qualified_name call.func ≠ some ["decimal", "Decimal"]) :
    decimal_from_float_literal_syntax c call = c := by
  rw [check_characterization]
  cases call.arguments.args.head? with
  | none => rfl
  | some arg => simp [h]

/-- Witness for C3 at the call `local_decimal(1.2345)` whose callee resolves
to `mymod.Decimal`. -/
theorem non_decimal_callee_emits_nothing_witness :
    decimal_from_float_literal_syntax demoChecker callShadow = demoChecker :=
  non_decimal_callee_emits_nothing demoChecker callShadow (by decide)

/-- C4: a call to `decimal.Decimal` with no first positional argument, or
whose first positional argument is any shape that neither is a float literal
nor one unary wrap of a float literal (string literal, int literal,
identifier, nested call, ...), emits no diagnostic. -/
theorem non_matching_arg_shapes_emit_nothing :
    (∀ (c : Checker) (call : ExprCall),
        c.resolve_qualified_name call.func = some ["decimal", "Decimal"] →
        call.arguments.args = [] →
        decimal_from_float_literal_syntax c call = c) ∧
    (∀ (c : Checker) (call : ExprCall) (arg : Expr) (rest : List Expr),
        c.resolve_qualified_name call.func = some ["decimal", "Decimal"] →
        call.arguments.args = arg :: rest →
        arg_matches arg = false →
        decimal_from_float_literal_syntax c call = c) := by
  constructor
  · intro c call _ hargs
    rw [check_characterization]
    simp [hargs]
  · intro c call arg rest _ hargs hm
    rw [check_characterization]
    simp [hargs, hm]

/-- Witness for C4 at the calls `Decimal(value=1.0)` (no positional
argument), `Decimal("1.2345")`, `Decimal(5)` and `Decimal(local_decimal())`
(a nested call). -/
theorem non_matching_arg_shapes_emit_nothing_witness :
    decimal_from_float_literal_syntax demoChecker callKeywordOnly = demoChecker ∧
    decimal_from_float_literal_syntax demoChecker callString = demoChecker ∧
    decimal_from_float_literal_syntax demoChecker callInt = demoChecker :=
  ⟨non_matching_arg_shapes_emit_nothing.1 demoChecker callKeywordOnly rfl rfl,
    non_matching_arg_shapes_emit_nothing.2 demoChecker callString
      (Expr.stringLiteral "1.2345" { start := 8, stop := 16 }) [] rfl rfl rfl,
    non_matching_arg_shapes_emit_nothing.2 demoChecker callInt
      (Expr.numberLiteral (Number.int 5) { start := 8, stop := 9 }) [] rfl rfl rfl⟩

/-- C5: every fix attached to a diagnostic emitted by the rule carries the
`Unsafe` applicability (modelled as `notSafe`); no emitted fix is `safe`, for
any input. -/
theorem emitted_fixes_never_safe (c : Checker) (call : ExprCall)
    (d : Diagnostic) (hd : d ∈ emitted c call) (f : Fix) (hf : d.fix = some f) :
    f.applicability = Applicability.notSafe ∧
      f.applicability ≠ Applicability.safe := by
  rcases hhead : call.arguments.args.head? with _ | arg
  · rw [emitted_of_unchanged c call (check_unchanged_of_none c call hhead)] at hd
    cases hd
  · by_cases hcond : c.resolve_qualified_name call.func = some ["decimal", "Decimal"]
        ∧ arg_matches arg = true
    · rw [emitted_of_push c call _
        (check_push_of_match c call arg hhead hcond.1 hcond.2)] at hd
      rw [List.mem_singleton] at hd
      subst hd
      simp only [Diagnostic.new, Diagnostic.with_fix, Option.some.injEq] at hf
      subst hf
      exact ⟨rfl, by simp [fix_float_literal, Fix.notSafe_edit]⟩
    · rw [emitted_of_unchanged c call
        (check_unchanged_of_nomatch c call arg hhead hcond)] at hd
      cases hd

/-- Witness for C5 at the call `Decimal(1.2345)` and the fix the rule builds
for it. -/
theorem emitted_fixes_never_safe_witness :
    (fix_float_literal { start := 8, stop := 14 }
        (demoChecker.generator_expr
          (Expr.numberLiteral (Number.float "1.2345")
            { start := 8, stop := 14 }))).applicability = Applicability.notSafe ∧
    (fix_float_literal { start := 8, stop := 14 }
        (demoChecker.generator_expr
          (Expr.numberLiteral (Number.float "1.2345")
            { start := 8, stop := 14 }))).applicability ≠ Applicability.safe :=
  emitted_fixes_never_safe demoChecker callFloat
    ((Diagnostic.new DecimalFromFloatLiteral { start := 8, stop := 14 }).with_fix
      (fix_float_literal { start := 8, stop := 14 }
        (demoChecker.generator_expr
          (Expr.numberLiteral (Number.float "1.2345") { start := 8, stop := 14 }))))
    (by decide) _ rfl

/-- C6: each invocation leaves the sink either unchanged or extended by
exactly one diagnostic, and touches nothing else of the checker state; the
call node itself is consumed read-only. -/
theorem at_most_one_diagnostic_and_state_preserved (c : Checker) (call : ExprCall) :
    (( decimal_from_float_literal_syntax c call).diagnostics = c.diagnostics ∨
      ∃ d, ( decimal_from_float_literal_syntax c call).diagnostics =
        c.diagnostics ++ [d]) ∧
    ( decimal_from_float_literal_syntax c call).resolve_qualified_name =
      c.resolve_qualified_name ∧
    ( decimal_from_float_literal_syntax c call).generator_expr =
      c.generator_expr := by
  rcases hhead : call.arguments.args.head? with _ | arg
  · rw [check_unchanged_of_none c call hhead]
    exact ⟨Or.inl rfl, rfl, rfl⟩
  · by_cases hcond : c.resolve_qualified_name call.func = some ["decimal", "Decimal"]
        ∧ arg_matches arg = true
    · rw [check_push_of_match c call arg hhead hcond.1 hcond.2]
      exact ⟨Or.inr ⟨_, rfl⟩, rfl, rfl⟩
    · rw [check_unchanged_of_nomatch c call arg hhead hcond]
      exact ⟨Or.inl rfl, rfl, rfl⟩

/-- C7: the rule is a total function, and each failure mode — unresolved
callee, absent first positional argument, non-matching argument shape —
collapses to the same outward outcome: the checker is returned unchanged, with
no diagnostic. -/
theorem total_failure_modes_collapse_to_no_diagnostic (c : Checker) (call : ExprCall) :
    (c.resolve_qualified_name call.func = none →
      decimal_from_float_literal_syntax c call = c) ∧
    (call.arguments.args = [] →
      decimal_from_float_literal_syntax c call = c) ∧
    (∀ (arg : Expr) (rest : List Expr),
      call.arguments.args = arg :: rest → arg_matches arg = false →
      decimal_from_float_literal_syntax c call = c) := by
  refine ⟨fun hnone => ?_, fun hnil => ?_, fun arg rest hargs hm => ?_⟩
  · exact non_decimal_callee_emits_nothing c call (by simp [hnone])
  · rw [check_characterization]
    simp [hnil]
  · rw [check_characterization]
    simp [hargs, hm]

/-- Witness for C7 at the calls `unknown_name(1.2345)` (unresolved callee),
`Decimal(value=1.0)` (no positional argument) and `Decimal(5)` (shape
mismatch): all three collapse to the unchanged checker. -/
theorem total_failure_modes_collapse_to_no_diagnostic_witness :
    decimal_from_float_literal_syntax demoChecker callUnresolved = demoChecker ∧
    decimal_from_float_literal_syntax demoChecker callKeywordOnly = demoChecker ∧
    decimal_from_float_literal_syntax demoChecker callInt = demoChecker :=
  ⟨(total_failure_modes_collapse_to_no_diagnostic demoChecker callUnresolved).1 rfl,
    (total_failure_modes_collapse_to_no_diagnostic demoChecker callKeywordOnly).2.1 rfl,
    (total_failure_modes_collapse_to_no_diagnostic demoChecker callInt).2.2
      (Expr.numberLiteral (Number.int 5) { start := 8, stop := 9 }) [] rfl rfl⟩

/-- C8: every edit of every fix the rule emits replaces the span with some
text wrapped in double quotes — a string literal, never a float literal — and
the rule never fires on a call whose first positional argument is a string
literal, so re-running the check on the argument that results from applying
the fix cannot re-trigger the rule. -/
theorem fix_output_is_string_literal_never_retriggers :
    (∀ (c : Checker) (call : ExprCall) (d : Diagnostic) (f : Fix) (e : Edit),
        d ∈ emitted c call → d.fix = some f → e ∈ f.edits →
        ∃ s, e.content = "\"" ++ s ++ "\"") ∧
    (∀ (c : Checker) (call : ExprCall) (s : String) (r : TextRange)
        (rest : List Expr),
        call.arguments.args = Expr.stringLiteral s r :: rest →
        decimal_from_float_literal_syntax c call = c) := by
  constructor
  · intro c call d f e hd hf he
    rcases hhead : call.arguments.args.head? with _ | arg
    · rw [emitted_of_unchanged c call (check_unchanged_of_none c call hhead)] at hd
      cases hd
    · by_cases hcond : c.resolve_qualified_name call.func = some ["decimal", "Decimal"]
          ∧ arg_matches arg = true
      · rw [emitted_of_push c call _
          (check_push_of_match c call arg hhead hcond.1 hcond.2)] at hd
        rw [List.mem_singleton] at hd
        subst hd
        simp only [Diagnostic.new, Diagnostic.with_fix, Option.some.injEq] at hf
        subst hf
        simp only [fix_float_literal, Fix.notSafe_edit, Edit.range_replacement,
          List.mem_singleton] at he
        subst he
        exact ⟨c.generator_expr arg, rfl⟩
      · rw [emitted_of_unchanged c call
          (check_unchanged_of_nomatch c call arg hhead hcond)] at hd
        cases hd
  · intro c call s r rest hargs
    rw [check_characterization]
    simp [hargs, arg_matches]

/-- Witness for C8: the fix built for `Decimal(1.2345)` is quoted text, and
the rule does not fire on `Decimal("1.2345")`, the shape the fix produces. -/
theorem fix_output_is_string_literal_never_retriggers_witness :
    (∃ s, (Edit.range_replacement
        ("\"" ++ demoChecker.generator_expr
          (Expr.numberLiteral (Number.float "1.2345") { start := 8, stop := 14 })
          ++ "\"")
        { start := 8, stop := 14 }).content = "\"" ++ s ++ "\"") ∧
    decimal_from_float_literal_syntax demoChecker callString = demoChecker :=
  ⟨fix_output_is_string_literal_never_retriggers.1 demoChecker callFloat
      ((Diagnostic.new DecimalFromFloatLiteral { start := 8, stop := 14 }).with_fix
        (fix_float_literal { start := 8, stop := 14 }
          (demoChecker.generator_expr
            (Expr.numberLiteral (Number.float "1.2345") { start := 8, stop := 14 }))))
      (fix_float_literal { start := 8, stop := 14 }
        (demoChecker.generator_expr
          (Expr.numberLiteral (Number.float "1.2345") { start := 8, stop := 14 })))
      (Edit.range_replacement
        ("\"" ++ demoChecker.generator_expr
          (Expr.numberLiteral (Number.float "1.2345") { start := 8, stop := 14 })
          ++ "\"")
        { start := 8, stop := 14 })
      (by decide) rfl (by decide),
    fix_output_is_string_literal_never_retriggers.2 demoChecker callString
      "1.2345" { start := 8, stop := 16 } [] rfl⟩

/-- C9: a complex-kind numeric literal as first positional argument, bare or
wrapped in one unary operator, never produces a diagnostic: only float-kind
literals match. -/
theorem complex_literal_never_matches :
    (∀ (c : Checker) (call : ExprCall) (lit : String) (r : TextRange)
        (rest : List Expr),
        call.arguments.args =
          Expr.numberLiteral (Number.complex lit) r :: rest →
        decimal_from_float_literal_syntax c call = c) ∧
    (∀ (c : Checker) (call : ExprCall) (op : UnaryOp) (lit : String)
        (r1 r : TextRange) (rest : List Expr),
        call.arguments.args =
          Expr.unaryOp op (Expr.numberLiteral (Number.complex lit) r1) r :: rest →
        decimal_from_float_literal_syntax c call = c) := by
  constructor
  · intro c call lit r rest hargs
    rw [check_characterization]
    simp [hargs, arg_matches]
  · intro c call op lit r1 r rest hargs
    rw [check_characterization]
    simp [hargs, arg_matches, is_float_literal]

/-- Witness for C9 at the calls `Decimal(1.2j)` and `Decimal(-1.2j)`. -/
theorem complex_literal_never_matches_witness :
    decimal_from_float_literal_syntax demoChecker callComplex = demoChecker ∧
    decimal_from_float_literal_syntax demoChecker callNegComplex = demoChecker :=
  ⟨complex_literal_never_matches.1 demoChecker callComplex
      "1.2j" { start := 8, stop := 12 } [] rfl,
    complex_literal_never_matches.2 demoChecker callNegComplex
      UnaryOp.usub "1.2j" { start := 9, stop := 13 } { start := 8, stop := 13 } [] rfl⟩

/-- C10: a call with no positional arguments — for instance a float passed
only as a keyword argument — never produces a diagnostic, and the outcome is
the same for every resolver, because the positional-argument check precedes
callee resolution: the answer of the resolver is irrelevant to such calls. -/
theorem keyword_only_call_ignores_resolver (c : Checker) (call : ExprCall)
    (h : call.arguments.args = []) :
    decimal_from_float_literal_syntax c call = c ∧
    ∀ f : Expr → Option (List String),
      decimal_from_float_literal_syntax
          { c with resolve_qualified_name := f } call =
        { c with resolve_qualified_name := f } := by
  refine ⟨?_, fun f => ?_⟩
  · rw [check_characterization]
    simp [h]
  · rw [check_characterization]
    simp [h]

/-- Witness for C10 at the call `Decimal(value=1.0)`. -/
theorem keyword_only_call_ignores_resolver_witness :
    decimal_from_float_literal_syntax demoChecker callKeywordOnly = demoChecker ∧
    ∀ f : Expr → Option (List String),
      decimal_from_float_literal_syntax
          { demoChecker with resolve_qualified_name := f } callKeywordOnly =
        { demoChecker with resolve_qualified_name := f } :=
  keyword_only_call_ignores_resolver demoChecker callKeywordOnly rfl

end Ruff
